import Mathlib

/-!
Verification of the configuration-resolution behaviour of the
OpenAI-YouTube-Transcriber repository.

All definitions are shallow embeddings of the Python sources; unless noted
otherwise, line numbers refer to `OpenAIYouTubeTranscriber.py` (the most
recent script, which contains the profile/session resolution engine).

Modelling conventions:
* user input is a `List String` of the answers the user will type, consumed
  in order; a resolver returns `none` when the supplied inputs run out while
  a prompt loop is still asking (the real program would block on `input()`),
  or when the program would terminate via `exit()`;
* each prompting site reached is recorded once in a trace of `PromptKind`
  values (retries inside one site re-display the same prompt);
* `os.environ` / profile fields loaded by `load_dotenv` are strings, with
  `""` for an absent or blank value — the source guards every read with
  Python truthiness (`if s:`), which identifies the two;
* Python `str.lower()` / `str.isalnum()` are modelled on their ASCII
  fragment, which covers every value the scripts compare against.
-/

namespace YTT

/-- Python `str.lower()` (ASCII fragment), character by character. -/
def pyLower (s : String) : String := String.mk (s.data.map Char.toLower)

/-- Python `str.isdigit()`: nonempty and all characters are digits. -/
def pyIsDigit (s : String) : Bool := !s.data.isEmpty && s.data.all Char.isDigit

/-- Python `int(s)` on a digit string (only ever applied under an
`isdigit()` guard in the source). -/
def pyInt (s : String) : Nat := s.data.foldl (fun n c => 10 * n + (c.toNat - 48)) 0

/-- Python `s.endswith(c)` for a single character. -/
def pyEndsWith (s : String) (c : Char) : Bool := s.data.getLast? == some c

/-- Python `s[:-1]`. -/
def pyDropLast (s : String) : String := String.mk s.data.dropLast

/-- `YesNo.YES.value` (line 33). -/
def yesValues : List String := ["y", "yes", "true", "t", "1"]

/-- `YesNo.NO.value` (line 34). -/
def noValues : List String := ["n", "no", "false", "f", "0"]

/-- `YesNo.SKIP.value` (line 35). -/
def skipValues : List String := ["skip", "s"]

/-- `Resolution.values()` (lines 41-49). -/
def resolutionValues : List String := ["highest", "lowest", "fetch", "f"]

/-- The numeric menu choices accepted by the model prompt (line 93). -/
def modelNumberChoices : List String := ["1", "2", "3", "4", "5", "6", "7"]

/-- `ModelSize.all_model_values()` (lines 51-70). -/
def allModelValues : List String :=
  ["tiny", "base", "small", "medium", "large-v1", "large-v2", "large-v3"]

/-- `ModelSize.standard_models()` values (lines 60-62). -/
def standardModels : List String := ["tiny", "base", "small", "medium"]

/-- `ModelChoice.OPTIONS` (line 93): menu numbers, model names, and empty. -/
def modelChoiceOptions : List String := modelNumberChoices ++ allModelValues ++ [""]

/-- `ModelSize.get_model_by_number` (lines 72-83), returning the model value. -/
def getModelByNumber (n : String) : String :=
  if n = "1" then "tiny"
  else if n = "2" then "base"
  else if n = "3" then "small"
  else if n = "4" then "medium"
  else if n = "5" then "large-v1"
  else if n = "6" then "large-v2"
  else if n = "7" then "large-v3"
  else "base"

/-- `ModelSize.get_model_by_name` (lines 85-90): exact value match, defaulting
to `base`. -/
def getModelByName (name : String) : String :=
  if name ∈ allModelValues then name else "base"

/-- The `model_choice` → `model_name` mapping used after both the interactive
and the profile model-choice steps (lines 1019-1027 and 1282-1290). -/
def modelNameOfChoice (choice : String) : String :=
  if choice ∈ modelNumberChoices then getModelByNumber choice
  else if choice = "" then "base"
  else getModelByName choice

/-- `URL_PLACEHOLDER` (line 118). -/
def urlPlaceholder : String := "<Insert_YouTube_link_or_local_path_to_audio_or_video>"

/-- `YouTubeTranscriber.sanitize_filename` (lines 308-310); the same
expression builds `filename_base` in WhisperYouTubeMultitool.py line 353.
Keeps exactly the alphanumeric characters and `.`, `_`, `-`, space. -/
def sanitize_filename (text : String) : String :=
  String.mk (text.data.filter (fun c => c.isAlphanum || "._- ".data.contains c))

/-- The character class of the video-id regex `[a-zA-Z0-9_-]` (line 201). -/
def idChar (c : Char) : Bool := c.isAlpha || c.isDigit || c == '_' || c == '-'

/-- Python `re.match` of the anchored pattern used at line 201: eleven
class characters, where `$` also accepts one trailing newline. -/
def regexMatchesId (text : String) : Bool :=
  (text.length == 11 && text.data.all idChar) ||
  (text.length == 12 && text.endsWith "\n" && (text.dropRight 1).data.all idChar)

/-- `YouTubeTranscriber.is_youtube_video_id` (lines 196-201): length check,
then the regex match. -/
def is_youtube_video_id (text : String) : Bool :=
  if text.length ≠ 11 then false else regexMatchesId text

/-- `YouTubeTranscriber.get_yes_no_input` (lines 248-259; textually the same
helper is at WhisperYouTubeMultitool.py lines 38-59).  Consumes answers until
one settles the question; `none` when the supplied answers run out. -/
def get_yes_no_input (default : String) : List String → Option (Bool × List String)
  | [] => none
  | s :: rest =>
    let u := pyLower s
    if u ∈ yesValues then some (true, rest)
    else if u ∈ noValues then some (false, rest)
    else if u = "" then some (default = "y", rest)
    else get_yes_no_input default rest

/-- Classification of a single answer to a yes/no question: `some` when the
answer settles the prompt (with the settled value), `none` when the prompt
would be re-displayed.  Mirrors one iteration of the lines 250-259 loop. -/
def settleYesNo (default : String) (s : String) : Option Bool :=
  let u := pyLower s
  if u ∈ yesValues then some true
  else if u ∈ noValues then some false
  else if u = "" then some (default = "y")
  else none

/-- `YouTubeTranscriber.get_model_choice_input` (lines 261-276): loops until
the lowered answer is a menu number, a model name, or empty. -/
def get_model_choice_input : List String → Option (String × List String)
  | [] => none
  | s :: rest =>
    let u := pyLower s
    if u ∈ modelChoiceOptions then some (u, rest)
    else get_model_choice_input rest

/-- `YouTubeTranscriber.get_target_language_input` (lines 278-298).  The
whisper language table is external data, passed in as the lists of codes and
full names; empty input defaults to `DEFAULT_LANGUAGE = "en"` (line 119). -/
def get_target_language_input (codes names : List String) :
    List String → Option (String × List String)
  | [] => none
  | s :: rest =>
    let u := pyLower s
    if u = "" then some ("en", rest)
    else if u ∈ codes ∨ u ∈ names then some (u, rest)
    else get_target_language_input codes names rest

/-- The resolution-selection loop shown after fetching available resolutions
(lines 978-990; repeated verbatim at 1228-1240 and 1478-1490).  `avail` is the
list of available resolutions, highest first; call sites guard against an
empty list with `exit()`. -/
def selectResolutionLoop (avail : List String) :
    List String → Option (String × List String)
  | [] => none
  | s :: rest =>
    let u := pyLower s
    if u = "" then some (avail.headD "", rest)
    else if pyIsDigit u ∧ 1 ≤ pyInt u ∧ pyInt u ≤ avail.length then
      some (avail.getD (pyInt u - 1) "", rest)
    else if u ∈ avail ∨ (pyIsDigit u ∧ (u ++ "p") ∈ avail) then
      some (if u ∈ avail then u else u ++ "p", rest)
    else selectResolutionLoop avail rest

/-- The interactive RESOLUTION prompt loop (lines 908-947).  Returns the
resolution together with the `used_fields` update: `none` when the loop broke
on empty input (line 916-919), where the source leaves the saved field
untouched. -/
def resolutionInputLoop : List String → Option ((String × Option String) × List String)
  | [] => none
  | s :: rest =>
    if s = "" then some (("highest", none), rest)
    else
      let r := pyLower s
      if r ∈ resolutionValues then
        let rr := if r = "f" then "fetch" else r
        some ((rr, some rr), rest)
      else if pyEndsWith r 'p' then some ((r, some r), rest)
      else if pyIsDigit r then
        if 1 ≤ pyInt r then some ((r ++ "p", some (r ++ "p")), rest)
        else resolutionInputLoop rest
      else resolutionInputLoop rest

/-! ## Interaction state and the two resolution modes -/

/-- Identifies the interactive question a prompt belongs to. -/
inductive PromptKind where
  | downloadVideo
  | noAudioInVideo
  | resolutionChoice
  | downloadAudio
  | transcribeAudio
  | modelChoice
  | targetLanguage
  | useEnModel
  | runAgain
deriving DecidableEq, Repr

/-- Interaction state: the answers not yet consumed, and the prompting sites
reached so far (in order). -/
structure PState where
  inputs : List String
  prompts : List PromptKind
deriving DecidableEq, Repr

/-- Result of a resolution step: `none` when inputs ran out mid-prompt or the
program would `exit()`. -/
abbrev Step (α : Type) := Option (α × PState)

/-- Sequencing of resolution steps. -/
def mbind {α β : Type} (x : Step α) (f : α → PState → Step β) : Step β :=
  match x with
  | none => none
  | some (a, st) => f a st

/-- Run `get_yes_no_input` against the state, recording the prompt. -/
def askYesNo (k : PromptKind) (default : String) (st : PState) : Step Bool :=
  match get_yes_no_input default st.inputs with
  | none => none
  | some (b, rest) => some (b, ⟨rest, st.prompts ++ [k]⟩)

/-- Run `get_model_choice_input` against the state, recording the prompt. -/
def askModelChoice (st : PState) : Step String :=
  match get_model_choice_input st.inputs with
  | none => none
  | some (c, rest) => some (c, ⟨rest, st.prompts ++ [PromptKind.modelChoice]⟩)

/-- Run `get_target_language_input` against the state, recording the prompt. -/
def askTargetLanguage (codes names : List String) (st : PState) : Step String :=
  match get_target_language_input codes names st.inputs with
  | none => none
  | some (l, rest) => some (l, ⟨rest, st.prompts ++ [PromptKind.targetLanguage]⟩)

/-- The resolved settings of one session (the local variables of `main` after
the resolution phase).  `none` in an `Option` field models a Python local that
the resolved path never assigned (or assigned `None`). -/
structure Session where
  downloadVideo : Bool := false
  noAudioInVideo : Bool := false
  resolutionVal : Option String := none
  selectedRes : Option String := none
  downloadAudio : Bool := false
  transcribeAudio : Bool := true
  modelName : Option String := none
  targetLanguage : Option String := none
  useEnModel : Option Bool := none
deriving DecidableEq, Repr

/-- A profile: the flat field set written/read as `profile*.txt`, and also the
shape of `used_fields` (lines 122-133).  `""` is a blank or missing value. -/
structure Profile where
  url : String := urlPlaceholder
  downloadVideo : String := ""
  noAudioInVideo : String := ""
  resolutionField : String := ""
  downloadAudio : String := ""
  transcribeAudio : String := ""
  modelChoice : String := ""
  targetLanguage : String := ""
  useEnModel : String := ""
  repeatField : String := ""
deriving DecidableEq, Repr

/-- `DEFAULT_FIELDS` (lines 122-133): placeholder URL, all other fields blank. -/
def defaultFields : Profile := {}

/-- The carried-over `LAST_*` environment values a repeat iteration leaves for
the next interactive run (set at lines 1643-1675, read at 883-1045). -/
structure LastEnv where
  downloadVideo : Option String := none
  noAudioInVideo : Option String := none
  resolutionVal : Option String := none
  downloadAudio : Option String := none
  transcribeAudio : Option String := none
  modelChoice : Option String := none
  targetLanguage : Option String := none
  useEnModel : Option String := none
deriving DecidableEq, Repr

/-- A fresh process: no carried-over values. -/
def noLastEnv : LastEnv := {}

/-- One interactive yes/no setting with `LAST_*` carry-over (the shared shape
of lines 883-888 DOWNLOAD_VIDEO, 894-899 NO_AUDIO_IN_VIDEO, 994-999
DOWNLOAD_AUDIO, 1002-1007 TRANSCRIBE_AUDIO, 1040-1045 USE_EN_MODEL): a present
carried value is parsed by membership in `YesNo.YES.value`, otherwise the
user is prompted. -/
def iStepYesNoSetting (k : PromptKind) (default : String) (last : Option String)
    (st : PState) : Step Bool :=
  match last with
  | some v => some (yesValues.contains (pyLower v), st)
  | none => askYesNo k default st

/-- RESOLUTION in interactive mode (lines 902-954): a carried `LAST_RESOLUTION`
is used verbatim without validation (903-906), otherwise the prompt loop runs
(908-947); afterwards a bare `f` is normalised to `fetch` (949-954).  Returns
the resolution and the `used_fields` entry (`none` when not updated). -/
def iStepResolution (last : Option String) (st : PState) : Step (String × Option String) :=
  match last with
  | some v => some ((if v = "f" then "fetch" else v, none), st)
  | none =>
    match resolutionInputLoop st.inputs with
    | none => none
    | some ((r, fld), rest) =>
      some ((if r = "f" then "fetch" else r, fld),
            ⟨rest, st.prompts ++ [PromptKind.resolutionChoice]⟩)

/-- The fetch flow (lines 957-990 interactively, 1184-1240 in profile mode):
when the resolution is `fetch`, the available resolutions (external stream
data, highest first) are listed and one is selected; an empty list means
`exit()` (modelled `none`). -/
def fetchSelect (avail : List String) (st : PState) : Step String :=
  if avail.isEmpty then none
  else
    match selectResolutionLoop avail st.inputs with
    | none => none
    | some (sel, rest) => some (sel, ⟨rest, st.prompts ++ [PromptKind.resolutionChoice]⟩)

/-- MODEL_CHOICE in interactive mode (lines 1010-1016): a carried value is
used without validation, otherwise the model prompt runs. -/
def iStepModelChoice (last : Option String) (st : PState) : Step String :=
  match last with
  | some v => some (v, st)
  | none => askModelChoice st

/-- TARGET_LANGUAGE in interactive mode (lines 1031-1036): a carried value is
used without validation, otherwise the language prompt runs. -/
def iStepTargetLanguage (codes names : List String) (last : Option String)
    (st : PState) : Step String :=
  match last with
  | some v => some (v, st)
  | none => askTargetLanguage codes names st

/-- The interactive-mode resolution of every setting (lines 877-1051), for a
non-local-file source whose URL was already accepted.  Produces the resolved
session together with the `used_fields` profile snapshot that
`create_profile` would save. -/
def interactiveResolve (codes names avail : List String) (env : LastEnv)
    (st : PState) : Step (Session × Profile) :=
  -- DOWNLOAD_VIDEO (lines 883-889)
  mbind (iStepYesNoSetting PromptKind.downloadVideo "n" env.downloadVideo st) fun dv st =>
  -- NO_AUDIO_IN_VIDEO, only when downloading video (lines 891-900)
  mbind (if dv then iStepYesNoSetting PromptKind.noAudioInVideo "n" env.noAudioInVideo st
         else some (false, st)) fun na st =>
  -- RESOLUTION, only when downloading video (lines 902-954)
  mbind (if dv then
           mbind (iStepResolution env.resolutionVal st) fun rf st =>
             some ((some rf.1, rf.2), st)
         else some (((none : Option String), (none : Option String)), st)) fun rp st =>
  -- fetch flow (lines 957-990)
  mbind (if rp.1 = some "fetch" then
           mbind (fetchSelect avail st) fun sel st => some (some sel, st)
         else some ((none : Option String), st)) fun sel st =>
  -- DOWNLOAD_AUDIO (lines 992-1000)
  mbind (iStepYesNoSetting PromptKind.downloadAudio "n" env.downloadAudio st) fun da st =>
  -- TRANSCRIBE_AUDIO (lines 1002-1008)
  mbind (iStepYesNoSetting PromptKind.transcribeAudio "y" env.transcribeAudio st) fun ta st =>
  -- MODEL_CHOICE (lines 1010-1029)
  mbind (if ta then
           mbind (iStepModelChoice env.modelChoice st) fun c st =>
             some (some (modelNameOfChoice c), st)
         else some ((none : Option String), st)) fun mn st =>
  -- TARGET_LANGUAGE (lines 1031-1037)
  mbind (if ta then
           mbind (iStepTargetLanguage codes names env.targetLanguage st) fun l st =>
             some (some l, st)
         else some ((none : Option String), st)) fun tl st =>
  -- USE_EN_MODEL (lines 1039-1048; 1050-1051 when not transcribing)
  mbind (if ta then
           if mn.getD "" ∈ standardModels ∧ tl = some "en" then
             mbind (iStepYesNoSetting PromptKind.useEnModel "n" env.useEnModel st) fun u st =>
               some (some u, st)
           else some (some false, st)
         else some (some false, st)) fun uem st =>
  some (({ downloadVideo := dv
           noAudioInVideo := na
           resolutionVal := rp.1
           selectedRes := sel
           downloadAudio := da
           transcribeAudio := ta
           modelName := if ta then mn else some "base"
           targetLanguage := tl
           useEnModel := uem },
         { defaultFields with
           downloadVideo := if dv then "y" else "n"
           noAudioInVideo := if dv then (if na then "y" else "n") else ""
           resolutionField := rp.2.getD ""
           downloadAudio := if da then "y" else "n"
           transcribeAudio := if ta then "y" else "n"
           modelChoice := if ta then mn.getD "" else ""
           targetLanguage := if ta then tl.getD "" else ""
           useEnModel :=
             if ta ∧ (mn.getD "" ∈ standardModels ∧ tl = some "en") then
               (if uem.getD false then "y" else "n")
             else "" }),
        st)

/-- A yes/no field resolved from a loaded profile where a blank value prompts
(DOWNLOAD_VIDEO lines 1129-1141, TRANSCRIBE_AUDIO lines 1255-1267): a valid
`YesNo` token decides; blank or invalid values fall back to the prompt. -/
def pStepYesNoField (k : PromptKind) (default : String) (field : String)
    (st : PState) : Step Bool :=
  if field ≠ "" then
    if pyLower field ∈ yesValues then some (true, st)
    else if pyLower field ∈ noValues then some (false, st)
    else askYesNo k default st
  else askYesNo k default st

/-- NO_AUDIO_IN_VIDEO from a profile (lines 1144-1157), consulted only while
downloading video: valid tokens decide, an invalid nonblank value prompts
(default yes, line 1155), and a blank value leaves the initial `False`
(line 1125) without prompting. -/
def pStepNoAudio (field : String) (st : PState) : Step Bool :=
  if field ≠ "" then
    if pyLower field ∈ yesValues then some (true, st)
    else if pyLower field ∈ noValues then some (false, st)
    else askYesNo PromptKind.noAudioInVideo "y" st
  else some (false, st)

/-- RESOLUTION from a profile (lines 1159-1182), consulted only while
downloading video.  No prompting happens here: `highest`/`lowest`/`fetch`/`f`
are kept, a positive digit string gets a `p` suffix, a nonpositive digit
string is silently dropped to `None`, a `p`-suffixed digit string is kept,
and anything else becomes the `fetch` marker.  A blank field stays unset. -/
def pStepResolutionField (field : String) : Option String :=
  if field ≠ "" then
    let r := pyLower field
    if r ∉ resolutionValues then
      if pyIsDigit r then
        if 1 ≤ pyInt r then some (r ++ "p") else none
      else if ¬(pyEndsWith r 'p' ∧ pyIsDigit (pyDropLast r)) then some "fetch"
      else some r
    else some r
  else none

/-- DOWNLOAD_AUDIO from a profile (lines 1242-1253): valid tokens decide, an
invalid nonblank value prompts, and a blank value leaves the initial `False`
(line 1126) without prompting. -/
def pStepDownloadAudio (field : String) (st : PState) : Step Bool :=
  if field ≠ "" then
    if pyLower field ∈ yesValues then some (true, st)
    else if pyLower field ∈ noValues then some (false, st)
    else askYesNo PromptKind.downloadAudio "n" st
  else some (false, st)

/-- MODEL_CHOICE from a profile (lines 1269-1278): when transcribing, a value
outside the accepted set prompts and a blank prompts; when not transcribing
the raw field value is kept (and never used). -/
def pStepModelChoice (field : String) (ta : Bool) (st : PState) : Step String :=
  if field ≠ "" ∧ ta then
    if pyLower field ∉ modelNumberChoices ++ allModelValues then
      askModelChoice st
    else some (field, st)
  else if ta then askModelChoice st
  else some (field, st)

/-- TARGET_LANGUAGE from a profile (lines 1322-1333): validated against the
language codes only (line 1325) — a full language name in the profile is
rejected and prompts; blank prompts. -/
def pStepTargetLanguage (codes names : List String) (field : String)
    (st : PState) : Step String :=
  if field ≠ "" then
    if pyLower field ∉ codes then askTargetLanguage codes names st
    else some (field, st)
  else askTargetLanguage codes names st

/-- USE_EN_MODEL from a profile (lines 1335-1348): valid tokens decide; an
invalid nonblank value prompts only under the standard-model/English guard
(line 1345) and otherwise forces `False`; a blank value leaves the local
unassigned (`none`) — there is no fallback for it. -/
def pStepUseEnModel (field : String) (ta : Bool) (modelStd isEn : Bool)
    (st : PState) : Step (Option Bool) :=
  if field ≠ "" ∧ ta then
    if pyLower field ∈ yesValues then some (some true, st)
    else if pyLower field ∈ noValues then some (some false, st)
    else if modelStd && isEn then
      mbind (askYesNo PromptKind.useEnModel "n" st) fun b st => some (some b, st)
    else some (some false, st)
  else some ((none : Option Bool), st)

/-- The profile-mode resolution of every setting (lines 1124-1348), for a
profile whose URL was already accepted as a non-local, non-placeholder
source (the URL steps at 1056-1122 and 1292-1320 call into the network
client and are outside this model). -/
def profileResolve (codes names avail : List String) (p : Profile)
    (st : PState) : Step Session :=
  -- DOWNLOAD_VIDEO (lines 1129-1141)
  mbind (pStepYesNoField PromptKind.downloadVideo "n" p.downloadVideo st) fun dv st =>
  -- NO_AUDIO_IN_VIDEO, inside `if download_video:` (lines 1143-1157)
  mbind (if dv then pStepNoAudio p.noAudioInVideo st else some (false, st)) fun na st =>
  -- RESOLUTION, inside `if download_video:` (lines 1159-1182); pure, no prompt
  let res : Option String := if dv then pStepResolutionField p.resolutionField else none
  -- fetch flow (lines 1184-1240)
  mbind (if dv ∧ res = some "fetch" then
           mbind (fetchSelect avail st) fun sel st => some (some sel, st)
         else some ((none : Option String), st)) fun sel st =>
  -- DOWNLOAD_AUDIO (lines 1242-1253)
  mbind (pStepDownloadAudio p.downloadAudio st) fun da st =>
  -- TRANSCRIBE_AUDIO (lines 1255-1267)
  mbind (pStepYesNoField PromptKind.transcribeAudio "y" p.transcribeAudio st) fun ta st =>
  -- MODEL_CHOICE (lines 1269-1290)
  mbind (pStepModelChoice p.modelChoice ta st) fun mc st =>
  let mn : Option String := if ta then some (modelNameOfChoice mc) else none
  -- TARGET_LANGUAGE, inside `if transcribe_audio:` (lines 1322-1333)
  mbind (if ta then
           mbind (pStepTargetLanguage codes names p.targetLanguage st) fun l st =>
             some (some l, st)
         else some ((none : Option String), st)) fun tl st =>
  -- USE_EN_MODEL (lines 1335-1348)
  mbind (pStepUseEnModel p.useEnModel ta (standardModels.contains (mn.getD ""))
           (tl.getD "" == "en") st) fun uem st =>
  some ({ downloadVideo := dv
          noAudioInVideo := na
          resolutionVal := res
          selectedRes := sel
          downloadAudio := da
          transcribeAudio := ta
          modelName := mn
          targetLanguage := tl
          useEnModel := uem },
        st)

/-! ## Repeat loop -/

/-- The repeat decision at the end of a run (lines 1601-1632).  `askCount`
models the `_REPEAT_ASK_COUNT` environment variable (0 when unset); it is
incremented exactly when the question was asked.  In profile mode a valid
`REPEAT` token decides without asking; a blank or invalid value — and every
interactive run — asks, with default `n` on the first ask of a chain and `y`
afterwards (lines 1613-1615 and 1623-1624). -/
def resolveRepeat (loadProfile : Bool) (repeatField : String) (askCount : Nat)
    (inputs : List String) : Option (Bool × Nat × List String) :=
  if loadProfile ∧ pyLower repeatField ∈ yesValues then
    some (true, askCount, inputs)
  else if loadProfile ∧ pyLower repeatField ∈ noValues then
    some (false, askCount, inputs)
  else
    match get_yes_no_input (if askCount > 0 then "y" else "n") inputs with
    | none => none
    | some (b, rest) => some (b, askCount + 1, rest)

/-- A whole repeat chain in interactive mode (or with a blank profile
`REPEAT`): `main` re-invokes itself while the answer is yes (lines 1641-1687),
carrying `_REPEAT_ASK_COUNT` forward in the environment.  Each element of
`runs` is the input available at that iteration's question; the trace records
(default offered, decision) per ask. -/
def repeatChainTrace (askCount : Nat) : List (List String) → List (String × Bool)
  | [] => []
  | ins :: rest =>
    let d := if askCount > 0 then "y" else "n"
    match get_yes_no_input d ins with
    | none => []
    | some (b, _) =>
      (d, b) :: (if b then repeatChainTrace (askCount + 1) rest else [])

/-! ## Retry wrapper (tenacity) -/

/-- The attempt loop of `tenacity.retry(stop=stop_after_attempt n, ...)`:
`op i` is the outcome of the i-th attempt (`none` = the call raised).
Returns the final outcome and the number of attempts made; on exhaustion the
last failure propagates (as `RetryError`).  The fixed wait between attempts
does not affect the outcome. -/
def retryGo {α : Type} (op : Nat → Option α) : Nat → Nat → Option α × Nat
  | 0, made => (none, made)
  | fuel + 1, made =>
    match op made with
    | some a => (some a, made + 1)
    | none => retryGo op fuel (made + 1)

/-- `@retry(stop=stop_after_attempt n, wait=wait_fixed w)` applied to an
operation. -/
def retryStopAfterAttempt {α : Type} (n : Nat) (op : Nat → Option α) :
    Option α × Nat :=
  retryGo op n 0

/-- `YouTubeTranscriber.create_youtube_object` (lines 340-348): the YouTube
client construction wrapped in a 3-attempt, fixed-wait retry. -/
def create_youtube_object {α : Type} (attempt : Nat → Option α) : Option α × Nat :=
  retryStopAfterAttempt 3 attempt

/-- `download_with_retry` inside `download_audio_stream` (lines 408-415): the
audio stream download wrapped in a 3-attempt, fixed-wait retry. -/
def download_with_retry {α : Type} (attempt : Nat → Option α) : Option α × Nat :=
  retryStopAfterAttempt 3 attempt

/-! ## Profile store (`create_profile`, lines 551-614) -/

/-- A flat file system: association list from path to contents (first binding
wins). -/
abbrev FileSys := List (String × String)

/-- `CONFIG_ENV` (line 115). -/
def configFileName : String := "config.txt"

/-- `DEFAULT_PROFILE` (line 117). -/
def defaultProfileName : String := "profile.txt"

/-- The contents written to a fresh config pointer file (lines 559-561). -/
def configFileContents : String :=
  "# Configuration file for YouTube Transcriber\nLOAD_PROFILE=" ++ defaultProfileName

/-- The config-pointer half of `create_profile` (lines 557-565): the pointer
file is written only when absent; an existing one is left untouched. -/
def writeConfigPointer (fs : FileSys) : FileSys :=
  if (fs.lookup configFileName).isNone then (configFileName, configFileContents) :: fs
  else fs

/-- Does a file name match the profile pattern
`profile(\d+)?(-.*)?\.txt` (line 568)?  Decomposed: `profile`, an optional
digit block, an optional `-` suffix, `.txt`. -/
def matchesProfilePattern (name : String) : Bool :=
  let cs := name.data
  cs.take 7 == "profile".data && decide (11 ≤ cs.length) &&
    cs.drop (cs.length - 4) == ".txt".data &&
    (let mid := (cs.drop 7).take (cs.length - 11)
     let digits := mid.takeWhile Char.isDigit
     let rest := mid.drop digits.length
     rest.isEmpty || rest.head? == some '-')

/-- The number in a numbered profile name (`profile<n>...` with a nonempty
digit block), if any (lines 573-581). -/
def profileNumberOf (name : String) : Option Nat :=
  if matchesProfilePattern name then
    let digits := ((name.data.drop 7).take (name.data.length - 11)).takeWhile Char.isDigit
    if digits.isEmpty then none else some (pyInt (String.mk digits))
  else none

/-- The `while next_number in existing_numbers` scan (lines 586-588): the
least natural number not in the list. -/
def nextFreeNumber (used : List Nat) : Nat :=
  ((List.range (used.length + 1)).find? (fun n => !used.contains n)).getD 0

/-- The profile name `create_profile` picks (lines 583-589): the default name
when no profile exists, otherwise `profile<n>.txt` for the least free `n`. -/
def chooseProfileName (existing : List String) : String :=
  if (existing.filter matchesProfilePattern).isEmpty then defaultProfileName
  else
    "profile" ++
      toString (nextFreeNumber ((existing.filter matchesProfilePattern).filterMap profileNumberOf)) ++
      ".txt"

/-- The field sequence written into a profile file (lines 596-612), in file
order. -/
def profileFieldList (p : Profile) : List (String × String) :=
  [("URL", p.url),
   ("DOWNLOAD_VIDEO", p.downloadVideo),
   ("NO_AUDIO_IN_VIDEO", p.noAudioInVideo),
   ("RESOLUTION", p.resolutionField),
   ("DOWNLOAD_AUDIO", p.downloadAudio),
   ("TRANSCRIBE_AUDIO", p.transcribeAudio),
   ("MODEL_CHOICE", p.modelChoice),
   ("TARGET_LANGUAGE", p.targetLanguage),
   ("USE_EN_MODEL", p.useEnModel),
   ("REPEAT", p.repeatField)]

/-- The lines of the written profile file (lines 593-612): a comment header,
a blank line, then one `KEY=value` line per field. -/
def profileFileLines (p : Profile) : List String :=
  "# Edit values after the = sign" :: "" ::
    (profileFieldList p).map (fun kv => kv.1 ++ "=" ++ kv.2)

/-- What `load_dotenv` recovers from a written profile: the environment
bindings of the ten keys.  For the files this program writes (plain
`KEY=value` lines, values without newlines, quotes or surrounding blanks)
dotenv yields exactly the written pairs, so loading is modelled as lookup
over the written field sequence. -/
def profileOfBindings (l : List (String × String)) : Profile :=
  { url := (l.lookup "URL").getD ""
    downloadVideo := (l.lookup "DOWNLOAD_VIDEO").getD ""
    noAudioInVideo := (l.lookup "NO_AUDIO_IN_VIDEO").getD ""
    resolutionField := (l.lookup "RESOLUTION").getD ""
    downloadAudio := (l.lookup "DOWNLOAD_AUDIO").getD ""
    transcribeAudio := (l.lookup "TRANSCRIBE_AUDIO").getD ""
    modelChoice := (l.lookup "MODEL_CHOICE").getD ""
    targetLanguage := (l.lookup "TARGET_LANGUAGE").getD ""
    useEnModel := (l.lookup "USE_EN_MODEL").getD ""
    repeatField := (l.lookup "REPEAT").getD "" }

/-- Reloading a saved profile file: the bindings of the written file, read
back into a profile record. -/
def reloadProfile (p : Profile) : Profile := profileOfBindings (profileFieldList p)

/-! ## Mode selection on entry (lines 684-702) -/

/-- How a run chooses its mode before the `config.txt` logic (lines 704-848)
is consulted. -/
inductive ModeDecision where
  | loadRepeatProfile (name : String)
  | interactiveForced
  | configPath
deriving DecidableEq, Repr

/-- Lines 684-702: a repeat invocation with a carried profile name loads that
profile directly (when the file exists); a repeat invocation without one is
forced interactive; everything else proceeds to the `config.txt` logic. -/
def selectMode (repeatInvocation : Bool) (repeatProfileName : Option String)
    (profileExists : String → Bool) : ModeDecision :=
  match repeatInvocation, repeatProfileName with
  | true, some nm =>
    if profileExists nm then ModeDecision.loadRepeatProfile nm else ModeDecision.configPath
  | true, none => ModeDecision.interactiveForced
  | false, _ => ModeDecision.configPath

/-- The saved-resolution shapes that survive a profile round trip: the two
named qualities, or an explicit `<digits>p` value (exactly what lines
1159-1182 accept back without falling to the `fetch` marker). -/
def resFormOK (r : String) : Prop :=
  r = "highest" ∨ r = "lowest" ∨
    (pyEndsWith r 'p' = true ∧ pyIsDigit (pyDropLast r) = true)

/-- The `used_fields` snapshot an interactive session saves (lines 889, 900,
927-941, 1000, 1008, 1029, 1037, 1046): yes/no settings as `y`/`n` when
consulted, the resolved model name and target language when transcribing, and
the RESOLUTION / USE_EN_MODEL entries as recorded (empty when their update
was skipped). -/
def usedFieldsOf (sess : Session) (resField useEnField : String) : Profile :=
  { defaultFields with
    downloadVideo := if sess.downloadVideo then "y" else "n"
    noAudioInVideo :=
      if sess.downloadVideo then (if sess.noAudioInVideo then "y" else "n") else ""
    resolutionField := resField
    downloadAudio := if sess.downloadAudio then "y" else "n"
    transcribeAudio := if sess.transcribeAudio then "y" else "n"
    modelChoice := if sess.transcribeAudio then sess.modelName.getD "" else ""
    targetLanguage := if sess.transcribeAudio then sess.targetLanguage.getD "" else ""
    useEnModel := useEnField }

/-! ## Theorems -/

/-- C3: for every string, `sanitize_filename` keeps only characters that are
alphanumeric or one of `.`, `_`, `-`, space (all others are stripped), and it
is idempotent. -/
theorem C3_sanitize_filename_strips_and_idempotent (s : String) :
    ((sanitize_filename s).data.all (fun c => c.isAlphanum || "._- ".data.contains c)) = true
    ∧ sanitize_filename (sanitize_filename s) = sanitize_filename s := by
  constructor
  · rw [List.all_eq_true]
    intro c hc
    exact (List.mem_filter.mp hc).2
  · unfold sanitize_filename
    congr 1
    show (s.data.filter _).filter _ = s.data.filter _
    rw [List.filter_filter]
    simp

/-- C9: `is_youtube_video_id` accepts exactly the strings of length 11 whose
characters are ASCII letters, ASCII digits, `-` or `_` (the class `idChar`). -/
theorem C9_is_youtube_video_id_characterisation (text : String) :
    is_youtube_video_id text = (text.length == 11 && text.data.all idChar) := by
  unfold is_youtube_video_id regexMatchesId
  by_cases h : text.length = 11
  · simp [h]
  · simp [h]

/-- C7: `get_yes_no_input` settles on the first input that is a yes token, a
no token, or empty — yes tokens give `true`, no tokens give `false`, the
empty input gives the default's truth value — and skips (re-prompts on) every
other input; `settleYesNo` is that per-token classification. -/
theorem C7_get_yes_no_input_first_settling_token (default : String) (inputs : List String) :
    (get_yes_no_input default inputs).map Prod.fst = inputs.findSome? (settleYesNo default) := by
  induction inputs with
  | nil => rfl
  | cons s rest ih =>
    rw [get_yes_no_input, List.findSome?]
    by_cases h1 : pyLower s ∈ yesValues
    · have hs : settleYesNo default s = some true := by simp [settleYesNo, h1]
      rw [hs]
      simp [if_pos h1]
    · by_cases h2 : pyLower s ∈ noValues
      · have hs : settleYesNo default s = some false := by simp [settleYesNo, h1, h2]
        rw [hs]
        simp [if_neg h1, if_pos h2]
      · by_cases h3 : pyLower s = ""
        · have hy : ("" : String) ∉ yesValues := by decide
          have hn : ("" : String) ∉ noValues := by decide
          have hs : settleYesNo default s = some (decide (default = "y")) := by
            simp [settleYesNo, h1, h2, h3, hy, hn]
          rw [hs]
          simp [h3, hy, hn]
        · have hs : settleYesNo default s = none := by simp [settleYesNo, h1, h2, h3]
          rw [hs]
          simp only [if_neg h1, if_neg h2, if_neg h3]
          exact ih

/-- Attempt counting of the retry loop: at most `fuel` attempts are added. -/
theorem retryGo_count_le {α : Type} (op : Nat → Option α) :
    ∀ fuel made, (retryGo op fuel made).2 ≤ made + fuel := by
  intro fuel
  induction fuel with
  | zero => intro made; simp [retryGo]
  | succ f ih =>
    intro made
    unfold retryGo
    cases h : op made with
    | some a => simp
    | none =>
      have := ih (made + 1)
      show (retryGo op f (made + 1)).2 ≤ made + (f + 1)
      omega

/-- C8: both retry wrappers — around the YouTube-object construction and the
audio-stream download — make at most 3 attempts, and when every attempt
fails they stop after exactly 3 attempts with the failure as outcome. -/
theorem C8_retry_bounded {α : Type} (op : Nat → Option α) :
    (create_youtube_object op).2 ≤ 3
    ∧ (download_with_retry op).2 ≤ 3
    ∧ ((∀ i, i < 3 → op i = none) →
        create_youtube_object op = (none, 3) ∧ download_with_retry op = (none, 3)) := by
  refine ⟨retryGo_count_le op 3 0, retryGo_count_le op 3 0, ?_⟩
  intro h
  have h0 := h 0 (by omega)
  have h1 := h 1 (by omega)
  have h2 := h 2 (by omega)
  constructor <;>
    simp [create_youtube_object, download_with_retry, retryStopAfterAttempt,
          retryGo, h0, h1, h2]

/-- Witness for C8 at the always-failing operation. -/
theorem C8_retry_bounded_witness :
    create_youtube_object (fun _ => (none : Option Nat)) = (none, 3)
    ∧ download_with_retry (fun _ => (none : Option Nat)) = (none, 3) :=
  (C8_retry_bounded (fun _ => (none : Option Nat))).2.2 (fun _ _ => rfl)

/-- Every ask after the first in a repeat chain offers default yes. -/
theorem repeatChainTrace_all_yes (runs : List (List String)) :
    ∀ c : Nat, 0 < c → ((repeatChainTrace c runs).all (fun e => e.1 == "y")) = true := by
  induction runs with
  | nil => intro c _; rfl
  | cons ins rest ih =>
    intro c hc
    unfold repeatChainTrace
    have hd : (if c > 0 then "y" else "n") = "y" := by simp [hc]
    simp only [hd]
    cases h : get_yes_no_input "y" ins with
    | none => rfl
    | some v =>
      rcases v with ⟨b, r⟩
      cases b <;> simp [ih (c + 1) (Nat.succ_pos c)]

/-- C2: in a repeat chain whose questions are actually asked (interactive
mode, or a blank profile `REPEAT` — both run the same ask, last conjunct),
the first `Run again?` ask of a process offers default no and every later
ask offers default yes; an empty answer takes exactly that default. -/
theorem C2_repeat_default_escalates (runs : List (List String)) :
    (((repeatChainTrace 0 runs).take 1).all (fun e => e.1 == "n")) = true
    ∧ (((repeatChainTrace 0 runs).drop 1).all (fun e => e.1 == "y")) = true
    ∧ get_yes_no_input "n" [""] = some (false, [])
    ∧ get_yes_no_input "y" [""] = some (true, [])
    ∧ (∀ c ins, resolveRepeat true "" c ins = resolveRepeat false "" c ins) := by
  have hy : ("" : String) ∉ yesValues := by decide
  have hn : ("" : String) ∉ noValues := by decide
  refine ⟨?_, ?_, ?_, ?_, ?_⟩
  · cases runs with
    | nil => rfl
    | cons ins rest =>
      unfold repeatChainTrace
      simp only [gt_iff_lt, lt_irrefl, if_false]
      cases h : get_yes_no_input "n" ins with
      | none => rfl
      | some v => rcases v with ⟨b, r⟩; simp
  · cases runs with
    | nil => rfl
    | cons ins rest =>
      unfold repeatChainTrace
      simp only [gt_iff_lt, lt_irrefl, if_false]
      cases h : get_yes_no_input "n" ins with
      | none => rfl
      | some v =>
        rcases v with ⟨b, r⟩
        cases b <;> simp [repeatChainTrace_all_yes rest 1 Nat.one_pos]
  · rw [get_yes_no_input]
    simp [hy, hn, pyLower]
  · rw [get_yes_no_input]
    simp [hy, hn, pyLower]
  · intro c ins
    unfold resolveRepeat
    simp [hy, hn, pyLower]

/-- C10: `create_profile` leaves an existing `config.txt` untouched, and
writes the pointer file (naming the default profile) only when it does not
exist, leaving every other path unchanged. -/
theorem C10_config_pointer_preserved (fs : FileSys) :
    (∀ c, fs.lookup configFileName = some c → writeConfigPointer fs = fs)
    ∧ (fs.lookup configFileName = none →
        (writeConfigPointer fs).lookup configFileName = some configFileContents
        ∧ ∀ q, q ≠ configFileName → (writeConfigPointer fs).lookup q = fs.lookup q) := by
  constructor
  · intro c hc
    unfold writeConfigPointer
    simp [hc]
  · intro h
    unfold writeConfigPointer
    simp only [h, Option.isNone_none, if_true]
    constructor
    · simp [List.lookup]
    · intro q hq
      have hqb : (q == configFileName) = false := beq_eq_false_iff_ne.mpr hq
      simp [List.lookup, hqb]

/-- Witness for C10: an existing pointer file is kept byte-for-byte; a
missing one is created with the default-profile pointer contents. -/
theorem C10_config_pointer_preserved_witness :
    writeConfigPointer [(configFileName, "x")] = [(configFileName, "x")]
    ∧ (writeConfigPointer []).lookup configFileName = some configFileContents :=
  ⟨(C10_config_pointer_preserved [(configFileName, "x")]).1 "x" rfl,
   ((C10_config_pointer_preserved []).2 rfl).1⟩

/-- A successful `askYesNo` records exactly its prompt. -/
theorem askYesNo_prompts {k : PromptKind} {d : String} {st : PState} {b : Bool}
    {st2 : PState} (h : askYesNo k d st = some (b, st2)) :
    st2.prompts = st.prompts ++ [k] := by
  unfold askYesNo at h
  split at h
  · exact absurd h (by simp)
  · simp only [Option.some.injEq, Prod.mk.injEq] at h
    rw [← h.2]

/-- A successful `askModelChoice` records exactly the model prompt. -/
theorem askModelChoice_prompts {st : PState} {c : String} {st2 : PState}
    (h : askModelChoice st = some (c, st2)) :
    st2.prompts = st.prompts ++ [PromptKind.modelChoice] := by
  unfold askModelChoice at h
  split at h
  · exact absurd h (by simp)
  · simp only [Option.some.injEq, Prod.mk.injEq] at h
    rw [← h.2]

/-- A successful `askTargetLanguage` records exactly the language prompt. -/
theorem askTargetLanguage_prompts {codes names : List String} {st : PState}
    {l : String} {st2 : PState} (h : askTargetLanguage codes names st = some (l, st2)) :
    st2.prompts = st.prompts ++ [PromptKind.targetLanguage] := by
  unfold askTargetLanguage at h
  split at h
  · exact absurd h (by simp)
  · simp only [Option.some.injEq, Prod.mk.injEq] at h
    rw [← h.2]

/-- A successful `fetchSelect` records exactly the resolution prompt. -/
theorem fetchSelect_prompts {avail : List String} {st : PState} {sel : String}
    {st2 : PState} (h : fetchSelect avail st = some (sel, st2)) :
    st2.prompts = st.prompts ++ [PromptKind.resolutionChoice] := by
  unfold fetchSelect at h
  split at h
  · exact absurd h (by simp)
  · split at h
    · exact absurd h (by simp)
    · simp only [Option.some.injEq, Prod.mk.injEq] at h
      rw [← h.2]

/-- C1 counterexample: the profile carrying the malformed value `0` for
RESOLUTION (with DOWNLOAD_VIDEO enabled, so the field is consulted) resolves
to completion with `resolution = None` and does not trigger any interactive
prompt at all — in particular no fallback prompt for RESOLUTION — refuting
the claim that every malformed RESOLUTION value prompts. -/
theorem C1_counterexample_resolution_zero_no_prompt :
    profileResolve ["en"] [] []
      { defaultFields with
        downloadVideo := "y"
        noAudioInVideo := "n"
        resolutionField := "0"
        downloadAudio := "n"
        transcribeAudio := "n" }
      ⟨[], []⟩ =
    some ({ downloadVideo := true, noAudioInVideo := false, resolutionVal := none,
            selectedRes := none, downloadAudio := false, transcribeAudio := false,
            modelName := none, targetLanguage := none, useEnModel := none },
          ⟨[], []⟩) := by decide

/-- C1 (amended): in profile mode, a malformed nonblank DOWNLOAD_VIDEO or
TRANSCRIBE_AUDIO value (conjunct 1), a malformed MODEL_CHOICE with
transcription enabled (conjunct 2), and a malformed TARGET_LANGUAGE
(conjunct 3) each fall back to the interactive prompt for that setting, with
no exception raised.  A malformed RESOLUTION, however, prompts nothing at
resolution time: a nonpositive digit string silently becomes `None`
(conjunct 4), and any other malformed value becomes the `fetch` marker
(conjunct 5) whose resolution prompt is only reached later, in the
stream-fetch flow (conjunct 6). -/
theorem C1_amended_invalid_value_fallback :
    (∀ (k : PromptKind) (d v : String) (st : PState) (b : Bool) (st2 : PState),
      v ≠ "" → pyLower v ∉ yesValues → pyLower v ∉ noValues →
      pStepYesNoField k d v st = some (b, st2) → k ∈ st2.prompts)
    ∧ (∀ (v : String) (st : PState) (r : String) (st2 : PState),
      v ≠ "" → pyLower v ∉ modelNumberChoices ++ allModelValues →
      pStepModelChoice v true st = some (r, st2) → PromptKind.modelChoice ∈ st2.prompts)
    ∧ (∀ (codes names : List String) (v : String) (st : PState) (r : String) (st2 : PState),
      v ≠ "" → pyLower v ∉ codes →
      pStepTargetLanguage codes names v st = some (r, st2) →
      PromptKind.targetLanguage ∈ st2.prompts)
    ∧ (∀ v : String, v ≠ "" → pyLower v ∉ resolutionValues →
      pyIsDigit (pyLower v) = true → pyInt (pyLower v) = 0 →
      pStepResolutionField v = none)
    ∧ (∀ v : String, v ≠ "" → pyLower v ∉ resolutionValues →
      pyIsDigit (pyLower v) = false →
      ¬(pyEndsWith (pyLower v) 'p' = true ∧ pyIsDigit (pyDropLast (pyLower v)) = true) →
      pStepResolutionField v = some "fetch")
    ∧ (∀ (avail : List String) (st : PState) (sel : String) (st2 : PState),
      fetchSelect avail st = some (sel, st2) → PromptKind.resolutionChoice ∈ st2.prompts) := by
  refine ⟨?_, ?_, ?_, ?_, ?_, ?_⟩
  · intro k d v st b st2 hv hy hn h
    unfold pStepYesNoField at h
    rw [if_pos hv, if_neg hy, if_neg hn] at h
    rw [askYesNo_prompts h]
    simp
  · intro v st r st2 hv hm h
    unfold pStepModelChoice at h
    rw [if_pos ⟨hv, rfl⟩, if_pos hm] at h
    rw [askModelChoice_prompts h]
    simp
  · intro codes names v st r st2 hv hc h
    unfold pStepTargetLanguage at h
    rw [if_pos hv, if_pos hc] at h
    rw [askTargetLanguage_prompts h]
    simp
  · intro v hv hr hd hz
    unfold pStepResolutionField
    rw [if_pos hv, if_pos hr, if_pos hd, if_neg (by omega)]
  · intro v hv hr hd hp
    unfold pStepResolutionField
    rw [if_pos hv, if_pos hr, if_neg (by simp [hd]), if_pos (by simpa using hp)]
  · intro avail st sel st2 h
    rw [fetchSelect_prompts h]
    simp

/-- Witness for C1 (amended), at the malformed values `maybe` (yes/no
fields), `gigantic` (model), `klingon` (language), `0` and `garbage`
(resolution), with a one-element fetch list. -/
theorem C1_amended_invalid_value_fallback_witness :
    PromptKind.downloadVideo ∈
      (PState.mk [] [PromptKind.downloadVideo]).prompts
    ∧ PromptKind.modelChoice ∈ (PState.mk [] [PromptKind.modelChoice]).prompts
    ∧ PromptKind.targetLanguage ∈ (PState.mk [] [PromptKind.targetLanguage]).prompts
    ∧ pStepResolutionField "0" = none
    ∧ pStepResolutionField "garbage" = some "fetch"
    ∧ PromptKind.resolutionChoice ∈ (PState.mk [] [PromptKind.resolutionChoice]).prompts := by
  refine ⟨?_, ?_, ?_, ?_, ?_, ?_⟩
  · exact C1_amended_invalid_value_fallback.1 PromptKind.downloadVideo "n" "maybe"
      ⟨["y"], []⟩ true ⟨[], [PromptKind.downloadVideo]⟩
      (by decide) (by decide) (by decide) (by decide)
  · exact C1_amended_invalid_value_fallback.2.1 "gigantic" ⟨["base"], []⟩ "base"
      ⟨[], [PromptKind.modelChoice]⟩ (by decide) (by decide) (by decide)
  · exact C1_amended_invalid_value_fallback.2.2.1 ["en"] [] "klingon" ⟨["en"], []⟩ "en"
      ⟨[], [PromptKind.targetLanguage]⟩ (by decide) (by decide) (by decide)
  · exact C1_amended_invalid_value_fallback.2.2.2.1 "0"
      (by decide) (by decide) (by decide) (by decide)
  · exact C1_amended_invalid_value_fallback.2.2.2.2.1 "garbage"
      (by decide) (by decide) (by decide) (by decide)
  · exact C1_amended_invalid_value_fallback.2.2.2.2.2 ["720p"] ⟨[""], []⟩ "720p"
      ⟨[], [PromptKind.resolutionChoice]⟩ (by decide)

/-- C6 counterexample: a profile with a blank USE_EN_MODEL (in a session that
transcribes with a standard model into English, so the setting is live)
resolves without any prompt and leaves `use_en_model` unassigned — neither
the interactive prompt nor the documented default `False` is applied,
refuting the claim for that field. -/
theorem C6_counterexample_blank_use_en_model :
    profileResolve ["en"] [] []
      { defaultFields with
        downloadVideo := "n"
        downloadAudio := "n"
        transcribeAudio := "y"
        modelChoice := "base"
        targetLanguage := "en"
        useEnModel := "" }
      ⟨[], []⟩ =
    some ({ downloadVideo := false, noAudioInVideo := false, resolutionVal := none,
            selectedRes := none, downloadAudio := false, transcribeAudio := true,
            modelName := some "base", targetLanguage := some "en", useEnModel := none },
          ⟨[], []⟩)
    ∧ (none : Option Bool) ≠ some false := by
  constructor
  · decide
  · decide

/-- C6 (amended): blank profile fields fall back as follows — DOWNLOAD_VIDEO
and TRANSCRIBE_AUDIO to their interactive prompt (conjunct 1);
NO_AUDIO_IN_VIDEO and DOWNLOAD_AUDIO to their documented default `False`
without a prompt (conjuncts 2, 3); RESOLUTION stays unset (conjunct 4), which
the later stream selection treats as the highest-quality default;
MODEL_CHOICE and TARGET_LANGUAGE (when transcribing) to their prompts
(conjuncts 5, 6); REPEAT to the run-again question (conjunct 7, the counter
increments exactly because the question was asked).  USE_EN_MODEL is the
exception: a blank value is left unassigned, with neither prompt nor default
(conjunct 8).  (URL is resolved through the network client and is outside
this model.) -/
theorem C6_amended_blank_field_fallback :
    (∀ (k : PromptKind) (d : String) (st : PState) (b : Bool) (st2 : PState),
      pStepYesNoField k d "" st = some (b, st2) → k ∈ st2.prompts)
    ∧ (∀ st : PState, pStepNoAudio "" st = some (false, st))
    ∧ (∀ st : PState, pStepDownloadAudio "" st = some (false, st))
    ∧ pStepResolutionField "" = none
    ∧ (∀ (st : PState) (r : String) (st2 : PState),
      pStepModelChoice "" true st = some (r, st2) → PromptKind.modelChoice ∈ st2.prompts)
    ∧ (∀ (codes names : List String) (st : PState) (r : String) (st2 : PState),
      pStepTargetLanguage codes names "" st = some (r, st2) →
      PromptKind.targetLanguage ∈ st2.prompts)
    ∧ (∀ (lp : Bool) (c : Nat) (ins : List String) (b : Bool) (c2 : Nat) (rest2 : List String),
      resolveRepeat lp "" c ins = some (b, c2, rest2) → c2 = c + 1)
    ∧ (∀ (ta modelStd isEn : Bool) (st : PState),
      pStepUseEnModel "" ta modelStd isEn st = some ((none : Option Bool), st)) := by
  refine ⟨?_, ?_, ?_, by decide, ?_, ?_, ?_, ?_⟩
  · intro k d st b st2 h
    unfold pStepYesNoField at h
    rw [if_neg (by simp)] at h
    rw [askYesNo_prompts h]
    simp
  · intro st
    unfold pStepNoAudio
    rw [if_neg (by simp)]
  · intro st
    unfold pStepDownloadAudio
    rw [if_neg (by simp)]
  · intro st r st2 h
    unfold pStepModelChoice at h
    rw [if_neg (by simp), if_pos rfl] at h
    rw [askModelChoice_prompts h]
    simp
  · intro codes names st r st2 h
    unfold pStepTargetLanguage at h
    rw [if_neg (by simp)] at h
    rw [askTargetLanguage_prompts h]
    simp
  · intro lp c ins b c2 rest2 h
    unfold resolveRepeat at h
    have hy2 : pyLower "" ∉ yesValues := by decide
    have hn2 : pyLower "" ∉ noValues := by decide
    rw [if_neg (fun hx => hy2 hx.2), if_neg (fun hx => hn2 hx.2)] at h
    split at h
    · exact absurd h (by simp)
    · simp only [Option.some.injEq, Prod.mk.injEq] at h
      omega
  · intro ta modelStd isEn st
    unfold pStepUseEnModel
    rw [if_neg (by simp)]

/-- Witness for C6 (amended), at blank fields with concrete states. -/
theorem C6_amended_blank_field_fallback_witness :
    PromptKind.transcribeAudio ∈ (PState.mk [] [PromptKind.transcribeAudio]).prompts
    ∧ pStepNoAudio "" (PState.mk [] []) = some (false, PState.mk [] [])
    ∧ pStepDownloadAudio "" (PState.mk [] []) = some (false, PState.mk [] [])
    ∧ pStepResolutionField "" = none
    ∧ PromptKind.modelChoice ∈ (PState.mk [] [PromptKind.modelChoice]).prompts
    ∧ PromptKind.targetLanguage ∈ (PState.mk [] [PromptKind.targetLanguage]).prompts
    ∧ (2 : Nat) = 1 + 1
    ∧ pStepUseEnModel "" true true true (PState.mk [] [])
        = some ((none : Option Bool), PState.mk [] []) := by
  refine ⟨?_, ?_, ?_, ?_, ?_, ?_, ?_, ?_⟩
  · exact C6_amended_blank_field_fallback.1 PromptKind.transcribeAudio "y" ⟨["y"], []⟩
      true ⟨[], [PromptKind.transcribeAudio]⟩ (by decide)
  · exact C6_amended_blank_field_fallback.2.1 ⟨[], []⟩
  · exact C6_amended_blank_field_fallback.2.2.1 ⟨[], []⟩
  · exact C6_amended_blank_field_fallback.2.2.2.1
  · exact C6_amended_blank_field_fallback.2.2.2.2.1 ⟨["base"], []⟩ "base"
      ⟨[], [PromptKind.modelChoice]⟩ (by decide)
  · exact C6_amended_blank_field_fallback.2.2.2.2.2.1 ["en"] [] ⟨["en"], []⟩ "en"
      ⟨[], [PromptKind.targetLanguage]⟩ (by decide)
  · exact C6_amended_blank_field_fallback.2.2.2.2.2.2.1 true 1 ["y"] true 2 [] (by decide)
  · exact C6_amended_blank_field_fallback.2.2.2.2.2.2.2 true true true ⟨[], []⟩

/-- The no-token set and the yes-token set are disjoint. -/
theorem no_not_yes {s : String} (h : s ∈ noValues) : s ∉ yesValues := by
  fin_cases h <;> decide

/-- C5: the source priority of the session resolver.  Mode level (conjuncts
1-3): a carried repeat profile name from the environment wins outright — the
`config.txt` logic is never reached — a repeat without one forces interactive
mode, and only a fresh run consults `config.txt`.  Interactive mode
(conjuncts 4-9): a carried `LAST_*` environment value decides every setting
verbatim, with no prompt and no input touched; only when it is absent is the
user prompted.  Profile mode (conjuncts 10-13): a valid profile value decides
without prompting; the prompt is the fallback (blank and invalid values,
settled by C1/C6).  Profile values are never consulted in interactive mode
nor `LAST_*` values in profile mode: the two resolvers take only their own
source. -/
theorem C5_source_priority :
    (∀ (nm : String) (pe : String → Bool), pe nm = true →
      selectMode true (some nm) pe = ModeDecision.loadRepeatProfile nm)
    ∧ (∀ pe : String → Bool, selectMode true none pe = ModeDecision.interactiveForced)
    ∧ (∀ (x : Option String) (pe : String → Bool), selectMode false x pe = ModeDecision.configPath)
    ∧ (∀ (k : PromptKind) (d v : String) (st : PState),
      iStepYesNoSetting k d (some v) st = some (yesValues.contains (pyLower v), st))
    ∧ (∀ (v : String) (st : PState),
      iStepResolution (some v) st = some ((if v = "f" then "fetch" else v, none), st))
    ∧ (∀ (v : String) (st : PState), iStepModelChoice (some v) st = some (v, st))
    ∧ (∀ (codes names : List String) (v : String) (st : PState),
      iStepTargetLanguage codes names (some v) st = some (v, st))
    ∧ (∀ (k : PromptKind) (d : String) (st : PState) (b : Bool) (st2 : PState),
      iStepYesNoSetting k d none st = some (b, st2) → k ∈ st2.prompts)
    ∧ (∀ (st : PState) (v : String × Option String) (st2 : PState),
      iStepResolution none st = some (v, st2) → PromptKind.resolutionChoice ∈ st2.prompts)
    ∧ (∀ (k : PromptKind) (d v : String) (st : PState),
      pyLower v ∈ yesValues → pStepYesNoField k d v st = some (true, st))
    ∧ (∀ (k : PromptKind) (d v : String) (st : PState),
      pyLower v ∈ noValues → pStepYesNoField k d v st = some (false, st))
    ∧ (∀ (v : String) (st : PState),
      pyLower v ∈ modelNumberChoices ++ allModelValues →
      pStepModelChoice v true st = some (v, st))
    ∧ (∀ (codes names : List String) (v : String) (st : PState),
      v ≠ "" → pyLower v ∈ codes →
      pStepTargetLanguage codes names v st = some (v, st)) := by
  refine ⟨?_, ?_, ?_, ?_, ?_, ?_, ?_, ?_, ?_, ?_, ?_, ?_, ?_⟩
  · intro nm pe hpe
    simp [selectMode, hpe]
  · intro pe
    rfl
  · intro x pe
    rfl
  · intro k d v st
    rfl
  · intro v st
    rfl
  · intro v st
    rfl
  · intro codes names v st
    rfl
  · intro k d st b st2 h
    unfold iStepYesNoSetting at h
    rw [askYesNo_prompts h]
    simp
  · intro st v st2 h
    unfold iStepResolution at h
    split at h
    next heq => exact Option.noConfusion heq
    next =>
      split at h
      next => exact Option.noConfusion h
      next =>
        simp only [Option.some.injEq, Prod.mk.injEq] at h
        rw [← h.2]
        simp
  · intro k d v st hyv
    have hne : v ≠ "" := by
      rintro rfl
      revert hyv
      decide
    unfold pStepYesNoField
    rw [if_pos hne, if_pos hyv]
  · intro k d v st hnv
    have hne : v ≠ "" := by
      rintro rfl
      revert hnv
      decide
    unfold pStepYesNoField
    rw [if_pos hne, if_neg (no_not_yes hnv), if_pos hnv]
  · intro v st hv
    have hne : v ≠ "" := by
      rintro rfl
      revert hv
      decide
    unfold pStepModelChoice
    rw [if_pos ⟨hne, rfl⟩, if_neg (not_not.mpr hv)]
  · intro codes names v st hne hv
    unfold pStepTargetLanguage
    rw [if_pos hne, if_neg (not_not.mpr hv)]

/-- Witness for C5 at concrete carried values and profile fields. -/
theorem C5_source_priority_witness :
    selectMode true (some "profile.txt") (fun _ => true)
      = ModeDecision.loadRepeatProfile "profile.txt"
    ∧ pStepYesNoField PromptKind.downloadVideo "n" "Y" (PState.mk [] [])
      = some (true, PState.mk [] [])
    ∧ pStepYesNoField PromptKind.downloadVideo "n" "no" (PState.mk [] [])
      = some (false, PState.mk [] [])
    ∧ pStepModelChoice "large-v2" true (PState.mk [] [])
      = some ("large-v2", PState.mk [] [])
    ∧ pStepTargetLanguage ["en", "es"] [] "es" (PState.mk [] [])
      = some ("es", PState.mk [] []) := by
  refine ⟨?_, ?_, ?_, ?_, ?_⟩
  · exact C5_source_priority.1 "profile.txt" (fun _ => true) rfl
  · exact C5_source_priority.2.2.2.2.2.2.2.2.2.1 PromptKind.downloadVideo "n" "Y"
      ⟨[], []⟩ (by decide)
  · exact C5_source_priority.2.2.2.2.2.2.2.2.2.2.1 PromptKind.downloadVideo "n" "no"
      ⟨[], []⟩ (by decide)
  · exact C5_source_priority.2.2.2.2.2.2.2.2.2.2.2.1 "large-v2" ⟨[], []⟩ (by decide)
  · exact C5_source_priority.2.2.2.2.2.2.2.2.2.2.2.2 ["en", "es"] [] "es" ⟨[], []⟩
      (by decide) (by decide)

/-! ## Round-trip helper lemmas -/

/-- Inversion of step sequencing. -/
theorem mbind_eq_some {α β : Type} {x : Step α} {f : α → PState → Step β}
    {r : β × PState} (h : mbind x f = some r) :
    ∃ a st, x = some (a, st) ∧ f a st = some r := by
  cases x with
  | none => exact absurd h (by simp [mbind])
  | some v => exact ⟨v.1, v.2, rfl, h⟩

/-- A string ending in `p` has `p` as last character. -/
theorem getLast?_of_pyEndsWith {s : String} {c : Char} (h : pyEndsWith s c = true) :
    s.data.getLast? = some c := by
  simpa [pyEndsWith] using h

/-- A string ending in `p` is not a digit string. -/
theorem pyIsDigit_false_of_endsWith_p {s : String} (h : pyEndsWith s 'p' = true) :
    pyIsDigit s = false := by
  have hl := getLast?_of_pyEndsWith h
  have hm : 'p' ∈ s.data := List.mem_of_mem_getLast? hl
  rw [pyIsDigit]
  cases hall : s.data.all Char.isDigit with
  | false => simp
  | true =>
    rw [List.all_eq_true] at hall
    exact absurd (hall 'p' hm) (by decide)

/-- A string ending in `p` is none of the special resolution tokens. -/
theorem endsWithP_not_resolutionValue {s : String} (h : pyEndsWith s 'p' = true) :
    s ∉ resolutionValues := by
  intro hs
  fin_cases hs <;> revert h <;> decide

/-- The saved resolution shapes are never the `fetch` marker. -/
theorem resFormOK_ne_fetch {r : String} (h : resFormOK r) : r ≠ "fetch" := by
  rcases h with rfl | rfl | ⟨hp, _⟩
  · decide
  · decide
  · rintro rfl
    revert hp
    decide

/-- The saved resolution shapes are nonempty. -/
theorem resFormOK_ne_empty {r : String} (h : resFormOK r) : r ≠ "" := by
  rcases h with rfl | rfl | ⟨hp, _⟩
  · decide
  · decide
  · rintro rfl
    revert hp
    decide

/-- A saved resolution of a round-trippable shape reloads verbatim. -/
theorem pStepResolutionField_form {r : String} (hlow : pyLower r = r)
    (hform : resFormOK r) : pStepResolutionField r = some r := by
  rcases hform with rfl | rfl | ⟨hp, hd⟩
  · decide
  · decide
  · have hne : r ≠ "" := by
      rintro rfl
      revert hp
      decide
    have h1 : r ∉ resolutionValues := endsWithP_not_resolutionValue hp
    have h2 : pyIsDigit r = false := pyIsDigit_false_of_endsWith_p hp
    simp only [pStepResolutionField, if_pos hne, hlow, if_pos h1, h2,
      Bool.false_eq_true, if_false]
    rw [if_neg (not_not.mpr ⟨hp, hd⟩)]

/-- Model values are lower-case already. -/
theorem pyLower_model {m : String} (h : m ∈ allModelValues) : pyLower m = m := by
  fin_cases h <;> decide

/-- Model values are not menu numbers. -/
theorem model_not_number {m : String} (h : m ∈ allModelValues) :
    m ∉ modelNumberChoices := by
  fin_cases h <;> decide

/-- Model values are nonempty. -/
theorem model_ne_empty {m : String} (h : m ∈ allModelValues) : m ≠ "" := by
  fin_cases h <;> decide

/-- The choice-to-name mapping fixes model values. -/
theorem modelNameOfChoice_model {m : String} (h : m ∈ allModelValues) :
    modelNameOfChoice m = m := by
  unfold modelNameOfChoice getModelByName
  rw [if_neg (model_not_number h), if_neg (model_ne_empty h), if_pos h]

/-- The choice-to-name mapping always yields a model value. -/
theorem modelNameOfChoice_mem (c : String) : modelNameOfChoice c ∈ allModelValues := by
  unfold modelNameOfChoice getModelByNumber getModelByName
  split_ifs <;> first | assumption | decide

/-- `pStepYesNoField` on a yes token. -/
theorem pStepYesNoField_yes (k : PromptKind) (d v : String) (st : PState)
    (hyv : pyLower v ∈ yesValues) : pStepYesNoField k d v st = some (true, st) := by
  have hne : v ≠ "" := by
    rintro rfl
    revert hyv
    decide
  unfold pStepYesNoField
  rw [if_pos hne, if_pos hyv]

/-- `pStepYesNoField` on a no token. -/
theorem pStepYesNoField_no (k : PromptKind) (d v : String) (st : PState)
    (hnv : pyLower v ∈ noValues) : pStepYesNoField k d v st = some (false, st) := by
  have hne : v ≠ "" := by
    rintro rfl
    revert hnv
    decide
  unfold pStepYesNoField
  rw [if_pos hne, if_neg (no_not_yes hnv), if_pos hnv]

/-- `pStepNoAudio` on a yes token. -/
theorem pStepNoAudio_yes (v : String) (st : PState)
    (hyv : pyLower v ∈ yesValues) : pStepNoAudio v st = some (true, st) := by
  have hne : v ≠ "" := by
    rintro rfl
    revert hyv
    decide
  unfold pStepNoAudio
  rw [if_pos hne, if_pos hyv]

/-- `pStepNoAudio` on a no token. -/
theorem pStepNoAudio_no (v : String) (st : PState)
    (hnv : pyLower v ∈ noValues) : pStepNoAudio v st = some (false, st) := by
  have hne : v ≠ "" := by
    rintro rfl
    revert hnv
    decide
  unfold pStepNoAudio
  rw [if_pos hne, if_neg (no_not_yes hnv), if_pos hnv]

/-- `pStepDownloadAudio` on a yes token. -/
theorem pStepDownloadAudio_yes (v : String) (st : PState)
    (hyv : pyLower v ∈ yesValues) : pStepDownloadAudio v st = some (true, st) := by
  have hne : v ≠ "" := by
    rintro rfl
    revert hyv
    decide
  unfold pStepDownloadAudio
  rw [if_pos hne, if_pos hyv]

/-- `pStepDownloadAudio` on a no token. -/
theorem pStepDownloadAudio_no (v : String) (st : PState)
    (hnv : pyLower v ∈ noValues) : pStepDownloadAudio v st = some (false, st) := by
  have hne : v ≠ "" := by
    rintro rfl
    revert hnv
    decide
  unfold pStepDownloadAudio
  rw [if_pos hne, if_neg (no_not_yes hnv), if_pos hnv]

/-- A valid saved model value is kept on reload without prompting. -/
theorem pStepModelChoice_model {m : String} (hm : m ∈ allModelValues) (st : PState) :
    pStepModelChoice m true st = some (m, st) := by
  unfold pStepModelChoice
  rw [if_pos ⟨model_ne_empty hm, rfl⟩,
    if_neg (not_not.mpr (by rw [pyLower_model hm]; exact List.mem_append_right _ hm))]

/-- Without transcription the raw model field is kept, with no prompt. -/
theorem pStepModelChoice_skip (v : String) (st : PState) :
    pStepModelChoice v false st = some (v, st) := by
  unfold pStepModelChoice
  rw [if_neg (by simp), if_neg (by simp)]

/-- A valid saved target language code is kept on reload without prompting. -/
theorem pStepTargetLanguage_code {codes names : List String} {l : String}
    (hne : l ≠ "") (hc : pyLower l ∈ codes) (st : PState) :
    pStepTargetLanguage codes names l st = some (l, st) := by
  unfold pStepTargetLanguage
  rw [if_pos hne, if_neg (not_not.mpr hc)]

/-- A blank USE_EN_MODEL reloads as unassigned. -/
theorem pStepUseEnModel_blank (ta modelStd isEn : Bool) (st : PState) :
    pStepUseEnModel "" ta modelStd isEn st = some ((none : Option Bool), st) := by
  unfold pStepUseEnModel
  rw [if_neg (by simp)]

/-- A yes-token USE_EN_MODEL reloads to `True`. -/
theorem pStepUseEnModel_yes {v : String} (hyv : pyLower v ∈ yesValues)
    (modelStd isEn : Bool) (st : PState) :
    pStepUseEnModel v true modelStd isEn st = some (some true, st) := by
  have hne : v ≠ "" := by
    rintro rfl
    revert hyv
    decide
  unfold pStepUseEnModel
  rw [if_pos ⟨hne, rfl⟩, if_pos hyv]

/-- A no-token USE_EN_MODEL reloads to `False`. -/
theorem pStepUseEnModel_no {v : String} (hnv : pyLower v ∈ noValues)
    (modelStd isEn : Bool) (st : PState) :
    pStepUseEnModel v true modelStd isEn st = some (some false, st) := by
  have hne : v ≠ "" := by
    rintro rfl
    revert hnv
    decide
  unfold pStepUseEnModel
  rw [if_pos ⟨hne, rfl⟩, if_neg (no_not_yes hnv), if_pos hnv]

/-- The target-language prompt never returns an empty string. -/
theorem get_target_language_input_ne_empty {codes names : List String}
    {ins : List String} {l : String} {rest : List String}
    (h : get_target_language_input codes names ins = some (l, rest)) : l ≠ "" := by
  induction ins with
  | nil => exact absurd h (by simp [get_target_language_input])
  | cons s tail ih =>
    rw [get_target_language_input] at h
    by_cases h0 : pyLower s = ""
    · rw [if_pos h0] at h
      simp only [Option.some.injEq, Prod.mk.injEq] at h
      rw [← h.1]
      decide
    · rw [if_neg h0] at h
      by_cases h1 : pyLower s ∈ codes ∨ pyLower s ∈ names
      · rw [if_pos h1] at h
        simp only [Option.some.injEq, Prod.mk.injEq] at h
        rw [← h.1]
        exact h0
      · rw [if_neg h1] at h
        exact ih h

/-- What the interactive resolution loop can deliver: either the silent
`highest` default with no saved field, or a saved field equal to the
resolution, which is never the bare `f`. -/
theorem resolutionInputLoop_spec {ins : List String} {r : String}
    {fld : Option String} {rest : List String}
    (h : resolutionInputLoop ins = some ((r, fld), rest)) :
    (r = "highest" ∧ fld = none) ∨ (fld = some r ∧ r ≠ "f") := by
  induction ins with
  | nil => exact absurd h (by simp [resolutionInputLoop])
  | cons s tail ih =>
    rw [resolutionInputLoop] at h
    by_cases h0 : s = ""
    · rw [if_pos h0] at h
      simp only [Option.some.injEq, Prod.mk.injEq] at h
      exact Or.inl ⟨h.1.1.symm, h.1.2.symm⟩
    · rw [if_neg h0] at h
      by_cases h1 : pyLower s ∈ resolutionValues
      · rw [if_pos h1] at h
        simp only [Option.some.injEq, Prod.mk.injEq] at h
        refine Or.inr ⟨h.1.2.symm.trans (by rw [h.1.1]), ?_⟩
        rw [← h.1.1]
        by_cases hf : pyLower s = "f"
        · rw [if_pos hf]
          decide
        · rw [if_neg hf]
          exact hf
      · rw [if_neg h1] at h
        by_cases h2 : pyEndsWith (pyLower s) 'p' = true
        · rw [if_pos h2] at h
          simp only [Option.some.injEq, Prod.mk.injEq] at h
          refine Or.inr ⟨h.1.2.symm.trans (by rw [h.1.1]), ?_⟩
          rw [← h.1.1]
          rintro hq
          rw [hq] at h2
          revert h2
          decide
        · rw [if_neg h2] at h
          by_cases h3 : pyIsDigit (pyLower s) = true
          · rw [if_pos h3] at h
            by_cases h4 : 1 ≤ pyInt (pyLower s)
            · rw [if_pos h4] at h
              simp only [Option.some.injEq, Prod.mk.injEq] at h
              refine Or.inr ⟨h.1.2.symm.trans (by rw [h.1.1]), ?_⟩
              rw [← h.1.1]
              intro hq
              have : (pyLower s ++ "p").data.getLast? = some 'p' := by
                show ((pyLower s).data ++ ['p']).getLast? = some 'p'
                exact List.getLast?_concat _
              rw [hq] at this
              exact absurd this (by decide)
            · rw [if_neg h4] at h
              exact ih h
          · rw [if_neg h3] at h
            exact ih h

/-- Reading back the bindings of a written profile recovers the profile. -/
theorem reloadProfile_id (p : Profile) : reloadProfile p = p := rfl

/-- Inversion of the promptless path of `iStepResolution`. -/
theorem iStepResolution_none_inv {st : PState} {rf : String × Option String}
    {st2 : PState} (h : iStepResolution none st = some (rf, st2)) :
    ∃ r0 fld rest, resolutionInputLoop st.inputs = some ((r0, fld), rest)
      ∧ rf = (if r0 = "f" then "fetch" else r0, fld) := by
  simp only [iStepResolution] at h
  cases hl : resolutionInputLoop st.inputs with
  | none =>
    rw [hl] at h
    exact absurd h (by simp)
  | some w =>
    rw [hl] at h
    rcases w with ⟨⟨r0, fld⟩, rest⟩
    simp only [Option.some.injEq, Prod.mk.injEq] at h
    exact ⟨r0, fld, rest, rfl, h.1.symm⟩

/-- The target-language question never settles on an empty string. -/
theorem askTargetLanguage_ne_empty {codes names : List String} {st : PState}
    {l : String} {st2 : PState}
    (h : askTargetLanguage codes names st = some (l, st2)) : l ≠ "" := by
  unfold askTargetLanguage at h
  cases hl : get_target_language_input codes names st.inputs with
  | none =>
    rw [hl] at h
    exact absurd h (by simp)
  | some w =>
    rw [hl] at h
    rcases w with ⟨l0, rest⟩
    simp only [Option.some.injEq, Prod.mk.injEq] at h
    rw [← h.1]
    exact get_target_language_input_ne_empty hl

/-- What an interactive resolution (fresh process, no carried values)
guarantees about the session and its saved `used_fields` snapshot. -/
theorem interactiveResolve_saved {codes names avail ins : List String}
    {sess : Session} {fields : Profile} {st2 : PState}
    (h : interactiveResolve codes names avail noLastEnv (PState.mk ins []) =
      some ((sess, fields), st2)) :
    fields = usedFieldsOf sess fields.resolutionField fields.useEnModel
    ∧ (sess.downloadVideo = false →
        sess.noAudioInVideo = false ∧ sess.resolutionVal = none
          ∧ fields.resolutionField = "")
    ∧ (sess.downloadVideo = true →
        ∃ r, sess.resolutionVal = some r
          ∧ (fields.resolutionField = "" ∨ fields.resolutionField = r))
    ∧ (sess.resolutionVal ≠ some "fetch" → sess.selectedRes = none)
    ∧ (sess.transcribeAudio = true →
        ∃ m, sess.modelName = some m ∧ m ∈ allModelValues ∧ fields.modelChoice = m)
    ∧ (sess.transcribeAudio = true →
        ∃ l, sess.targetLanguage = some l ∧ l ≠ "" ∧ fields.targetLanguage = l)
    ∧ (sess.transcribeAudio = false →
        sess.targetLanguage = none ∧ sess.modelName = some "base")
    ∧ (fields.useEnModel ≠ "" →
        sess.transcribeAudio = true ∧ ∃ b, sess.useEnModel = some b
          ∧ fields.useEnModel = (if b then "y" else "n")) := by
  unfold interactiveResolve at h
  obtain ⟨dv, s1, h1, h⟩ := mbind_eq_some h
  obtain ⟨na, s2, h2, h⟩ := mbind_eq_some h
  obtain ⟨rp, s3, h3, h⟩ := mbind_eq_some h
  obtain ⟨sel, s4, h4, h⟩ := mbind_eq_some h
  obtain ⟨da, s5, h5, h⟩ := mbind_eq_some h
  obtain ⟨ta, s6, h6, h⟩ := mbind_eq_some h
  obtain ⟨mn, s7, h7, h⟩ := mbind_eq_some h
  obtain ⟨tl, s8, h8, h⟩ := mbind_eq_some h
  obtain ⟨uem, s9, h9, h⟩ := mbind_eq_some h
  simp only [Option.some.injEq, Prod.mk.injEq] at h
  obtain ⟨⟨hsess, hfields⟩, -⟩ := h
  subst hsess
  subst hfields
  refine ⟨?_, ?_, ?_, ?_, ?_, ?_, ?_, ?_⟩
  · cases dv <;> cases ta <;> rfl
  · intro hdv
    replace hdv : dv = false := hdv
    subst hdv
    simp only [Bool.false_eq_true, if_false, Option.some.injEq, Prod.mk.injEq] at h2 h3
    exact ⟨h2.1.symm, by rw [← h3.1], by rw [← h3.1]; rfl⟩
  · intro hdv
    replace hdv : dv = true := hdv
    subst hdv
    simp only [if_true] at h3
    obtain ⟨rf, st', hrf, heq⟩ := mbind_eq_some h3
    simp only [Option.some.injEq, Prod.mk.injEq] at heq
    obtain ⟨heq1, -⟩ := heq
    subst heq1
    obtain ⟨r0, fld, rest, hloop, hrf2⟩ := iStepResolution_none_inv hrf
    subst hrf2
    rcases resolutionInputLoop_spec hloop with ⟨hr0, hfld⟩ | ⟨hfld, hnf⟩
    · subst hr0
      subst hfld
      exact ⟨"highest", rfl, Or.inl rfl⟩
    · subst hfld
      refine ⟨r0, ?_, Or.inr ?_⟩
      · show some (if r0 = "f" then "fetch" else r0) = some r0
        rw [if_neg hnf]
      · rfl
  · intro hne
    replace hne : rp.1 ≠ some "fetch" := hne
    rw [if_neg hne] at h4
    simp only [Option.some.injEq, Prod.mk.injEq] at h4
    exact h4.1.symm
  · intro hta
    replace hta : ta = true := hta
    subst hta
    simp only [if_true] at h7
    obtain ⟨c, st', hc, heq⟩ := mbind_eq_some h7
    simp only [Option.some.injEq, Prod.mk.injEq] at heq
    obtain ⟨heq1, -⟩ := heq
    subst heq1
    exact ⟨modelNameOfChoice c, rfl, modelNameOfChoice_mem c, rfl⟩
  · intro hta
    replace hta : ta = true := hta
    subst hta
    simp only [if_true] at h8
    obtain ⟨l, st', hl, heq⟩ := mbind_eq_some h8
    simp only [Option.some.injEq, Prod.mk.injEq] at heq
    obtain ⟨heq1, -⟩ := heq
    subst heq1
    exact ⟨l, rfl, askTargetLanguage_ne_empty hl, rfl⟩
  · intro hta
    replace hta : ta = false := hta
    subst hta
    simp only [Bool.false_eq_true, if_false, Option.some.injEq, Prod.mk.injEq] at h8
    exact ⟨by rw [← h8.1], rfl⟩
  · intro hne
    by_cases hg : mn.getD "" ∈ standardModels ∧ tl = some "en"
    · by_cases hta : ta = true
      · subst hta
        simp only [if_true] at h9
        rw [if_pos hg] at h9
        obtain ⟨u, st', hu, heq⟩ := mbind_eq_some h9
        simp only [Option.some.injEq, Prod.mk.injEq] at heq
        obtain ⟨heq1, -⟩ := heq
        subst heq1
        refine ⟨rfl, u, rfl, ?_⟩
        show (if (true = true) ∧ (mn.getD "" ∈ standardModels ∧ tl = some "en") then
            (if (some u).getD false then "y" else "n") else "") = (if u then "y" else "n")
        rw [if_pos ⟨rfl, hg⟩]; rfl
      · exfalso
        apply hne
        replace hta : ta = false := by
          cases ta
          · rfl
          · exact absurd rfl hta
        subst hta
        show (if (false = true) ∧ (mn.getD "" ∈ standardModels ∧ tl = some "en") then
            (if uem.getD false then "y" else "n") else "") = ""
        rw [if_neg (by simp)]
    · exfalso
      apply hne
      show (if (ta = true) ∧ (mn.getD "" ∈ standardModels ∧ tl = some "en") then
          (if uem.getD false then "y" else "n") else "") = ""
      rw [if_neg (fun hx => hg hx.2)]

/-- Reloading the saved snapshot of a session resolves, with no prompt and no
input consumed, every consulted setting back to the session's value; the
model name reloads only when transcription is on, and a blank saved
USE_EN_MODEL reloads as unassigned. -/
theorem profileResolve_reload (codes names avail2 : List String) (sess : Session)
    (rf uf : String) (st0 : PState)
    (hna0 : sess.downloadVideo = false → sess.noAudioInVideo = false)
    (hres0 : sess.downloadVideo = false → sess.resolutionVal = none)
    (hres : sess.downloadVideo = true →
      sess.resolutionVal = some rf ∧ pyLower rf = rf ∧ resFormOK rf)
    (hmn : sess.transcribeAudio = true →
      ∃ m, sess.modelName = some m ∧ m ∈ allModelValues)
    (htl : sess.transcribeAudio = true →
      ∃ l, sess.targetLanguage = some l ∧ l ≠ "" ∧ pyLower l ∈ codes)
    (htl0 : sess.transcribeAudio = false → sess.targetLanguage = none)
    (huem : uf ≠ "" → sess.transcribeAudio = true
      ∧ ∃ b, sess.useEnModel = some b ∧ uf = (if b then "y" else "n")) :
    profileResolve codes names avail2 (usedFieldsOf sess rf uf) st0
      = some ({ sess with
                selectedRes := none
                modelName := if sess.transcribeAudio then sess.modelName else none
                useEnModel := if uf = "" then none else sess.useEnModel }, st0) := by
  have ey : ∀ k d st, pStepYesNoField k d "y" st = some (true, st) :=
    fun k d st => pStepYesNoField_yes k d "y" st (by decide)
  have en2 : ∀ k d st, pStepYesNoField k d "n" st = some (false, st) :=
    fun k d st => pStepYesNoField_no k d "n" st (by decide)
  have enay : ∀ st, pStepNoAudio "y" st = some (true, st) :=
    fun st => pStepNoAudio_yes "y" st (by decide)
  have enan : ∀ st, pStepNoAudio "n" st = some (false, st) :=
    fun st => pStepNoAudio_no "n" st (by decide)
  have eday : ∀ st, pStepDownloadAudio "y" st = some (true, st) :=
    fun st => pStepDownloadAudio_yes "y" st (by decide)
  have edan : ∀ st, pStepDownloadAudio "n" st = some (false, st) :=
    fun st => pStepDownloadAudio_no "n" st (by decide)
  have euey : ∀ std en st, pStepUseEnModel "y" true std en st = some (some true, st) :=
    fun std en st => pStepUseEnModel_yes (by decide) std en st
  have euen : ∀ std en st, pStepUseEnModel "n" true std en st = some (some false, st) :=
    fun std en st => pStepUseEnModel_no (by decide) std en st
  have hyne : ¬(("y" : String) = "") := by decide
  have hnne : ¬(("n" : String) = "") := by decide
  rcases sess with ⟨dv, na, rv, sr, da, ta, mnO, tlO, ueO⟩
  cases dv with
  | false =>
    have hna' : na = false := hna0 rfl
    have hrv' : rv = none := hres0 rfl
    subst hna' hrv'
    cases ta with
    | false =>
      have htl' : tlO = none := htl0 rfl
      subst htl'
      have huf : uf = "" := by
        by_contra hufne
        exact absurd (huem hufne).1 (by simp)
      subst huf
      cases da <;>
        simp [profileResolve, usedFieldsOf, defaultFields, ey, en2, eday, edan,
          pStepModelChoice_skip, pStepUseEnModel_blank, mbind]
    | true =>
      obtain ⟨m, hm, hmem⟩ := hmn rfl
      obtain ⟨l, hl, hlne, hlc⟩ := htl rfl
      subst hm hl
      have emc : ∀ st, pStepModelChoice m true st = some (m, st) :=
        fun st => pStepModelChoice_model hmem st
      have etl : ∀ st, pStepTargetLanguage codes names l st = some (l, st) :=
        fun st => pStepTargetLanguage_code hlne hlc st
      by_cases huf : uf = ""
      · subst huf
        cases da <;>
          simp [profileResolve, usedFieldsOf, defaultFields, ey, en2, eday, edan,
            emc, etl, pStepUseEnModel_blank, mbind, modelNameOfChoice_model hmem]
      · obtain ⟨-, b, hub, hufeq⟩ := huem huf
        subst hub hufeq
        cases b <;> cases da <;>
          simp [profileResolve, usedFieldsOf, defaultFields, ey, en2, eday, edan,
            emc, etl, euey, euen, hyne, hnne, mbind, modelNameOfChoice_model hmem]
  | true =>
    obtain ⟨hrv, hlow, hform⟩ := hres rfl
    subst hrv
    have eres : pStepResolutionField rf = some rf := pStepResolutionField_form hlow hform
    have hrfetch : ¬(rf = "fetch") := resFormOK_ne_fetch hform
    cases ta with
    | false =>
      have htl' : tlO = none := htl0 rfl
      subst htl'
      have huf : uf = "" := by
        by_contra hufne
        exact absurd (huem hufne).1 (by simp)
      subst huf
      cases na <;> cases da <;>
        simp [profileResolve, usedFieldsOf, defaultFields, ey, en2, enay, enan,
          eday, edan, eres, hrfetch, pStepModelChoice_skip, pStepUseEnModel_blank, mbind]
    | true =>
      obtain ⟨m, hm, hmem⟩ := hmn rfl
      obtain ⟨l, hl, hlne, hlc⟩ := htl rfl
      subst hm hl
      have emc : ∀ st, pStepModelChoice m true st = some (m, st) :=
        fun st => pStepModelChoice_model hmem st
      have etl : ∀ st, pStepTargetLanguage codes names l st = some (l, st) :=
        fun st => pStepTargetLanguage_code hlne hlc st
      by_cases huf : uf = ""
      · subst huf
        cases na <;> cases da <;>
          simp [profileResolve, usedFieldsOf, defaultFields, ey, en2, enay, enan,
            eday, edan, eres, hrfetch, emc, etl, pStepUseEnModel_blank, mbind,
            modelNameOfChoice_model hmem]
      · obtain ⟨-, b, hub, hufeq⟩ := huem huf
        subst hub hufeq
        cases b <;> cases na <;> cases da <;>
          simp [profileResolve, usedFieldsOf, defaultFields, ey, en2, enay, enan,
            eday, edan, eres, hrfetch, emc, etl, euey, euen, hyne, hnne, mbind,
            modelNameOfChoice_model hmem]

/-- C4 counterexample: an interactive session that answers download-video
yes and takes the empty-input resolution default resolves RESOLUTION to
`highest`, but its saved profile carries a blank RESOLUTION (lines 916-919
skip the `used_fields` update), so reloading that profile resolves
RESOLUTION to unset (`None`) — not the value the saved session had. -/
theorem C4_counterexample_highest_not_round_tripped :
    interactiveResolve ["en"] [] [] noLastEnv (PState.mk ["y", "n", "", "n", "n"] [])
      = some (({ downloadVideo := true, noAudioInVideo := false,
                 resolutionVal := some "highest", selectedRes := none,
                 downloadAudio := false, transcribeAudio := false,
                 modelName := some "base", targetLanguage := none,
                 useEnModel := some false },
               { defaultFields with
                 downloadVideo := "y"
                 noAudioInVideo := "n"
                 downloadAudio := "n"
                 transcribeAudio := "n" }),
              PState.mk [] [PromptKind.downloadVideo, PromptKind.noAudioInVideo,
                PromptKind.resolutionChoice, PromptKind.downloadAudio,
                PromptKind.transcribeAudio])
    ∧ profileResolve ["en"] [] []
        { defaultFields with
          downloadVideo := "y"
          noAudioInVideo := "n"
          downloadAudio := "n"
          transcribeAudio := "n" }
        (PState.mk [] [])
      = some ({ downloadVideo := true, noAudioInVideo := false,
                resolutionVal := none, selectedRes := none,
                downloadAudio := false, transcribeAudio := false,
                modelName := none, targetLanguage := none, useEnModel := none },
              PState.mk [] [])
    ∧ (some "highest" : Option String) ≠ none := by
  refine ⟨by decide, by decide, by decide⟩

/-- C4 (amended): a session saved by `create_profile` reloads — with no
prompt issued and no input consumed for any of the eight settings — to the
same DOWNLOAD_VIDEO, NO_AUDIO_IN_VIDEO, RESOLUTION, DOWNLOAD_AUDIO,
TRANSCRIBE_AUDIO, MODEL_CHOICE, TARGET_LANGUAGE and USE_EN_MODEL values,
provided the saved RESOLUTION is an explicit `highest`/`lowest`/`<digits>p`
value (not blank — the empty-input default — and not `fetch`) and the saved
TARGET_LANGUAGE is a supported code; MODEL_CHOICE reloads only when
transcription is on, and a blank saved USE_EN_MODEL reloads as unassigned.
(The URL is saved as the placeholder and is re-prompted on every reload,
outside these eight settings.) -/
theorem C4_amended_profile_round_trip
    {codes names avail ins : List String} {sess : Session} {fields : Profile}
    {st2 : PState} (avail2 : List String) (st0 : PState)
    (h : interactiveResolve codes names avail noLastEnv (PState.mk ins []) =
      some ((sess, fields), st2))
    (hrf : sess.downloadVideo = true →
      fields.resolutionField ≠ ""
        ∧ pyLower fields.resolutionField = fields.resolutionField
        ∧ resFormOK fields.resolutionField)
    (htlc : sess.transcribeAudio = true → pyLower fields.targetLanguage ∈ codes) :
    profileResolve codes names avail2 (reloadProfile fields) st0
      = some ({ sess with
                selectedRes := none
                modelName := if sess.transcribeAudio then sess.modelName else none
                useEnModel := if fields.useEnModel = "" then none else sess.useEnModel },
              st0) := by
  obtain ⟨hsave, hdvF, hdvT, -, hmodel, hlang, hlang0, hue⟩ := interactiveResolve_saved h
  rw [reloadProfile_id]
  rw [hsave]
  refine profileResolve_reload codes names avail2 sess fields.resolutionField
    fields.useEnModel st0 (fun hdv => (hdvF hdv).1) (fun hdv => (hdvF hdv).2.1)
    ?_ (fun hta => ?_) (fun hta => ?_) (fun hta => (hlang0 hta).1) hue
  · intro hdv
    obtain ⟨r, hr, hfld⟩ := hdvT hdv
    obtain ⟨hne, hlow, hform⟩ := hrf hdv
    rcases hfld with hfe | hfe
    · exact absurd hfe hne
    · rw [hfe]
      exact ⟨hfe ▸ hr, hfe ▸ hlow, hfe ▸ hform⟩
  · obtain ⟨m, hm, hmem, -⟩ := hmodel hta
    exact ⟨m, hm, hmem⟩
  · obtain ⟨l, hl, hlne, hfl⟩ := hlang hta
    refine ⟨l, hl, hlne, ?_⟩
    have := htlc hta
    rw [hfl] at this
    exact this

/-- Witness for C4 (amended): a concrete session (download video at 720p, no
separate audio, transcribe with the base model into English, English model
on) whose saved profile reloads to exactly the same resolved settings. -/
theorem C4_amended_profile_round_trip_witness :
    profileResolve ["en"] [] []
      (reloadProfile
        { defaultFields with
          downloadVideo := "y"
          noAudioInVideo := "n"
          resolutionField := "720p"
          downloadAudio := "n"
          transcribeAudio := "y"
          modelChoice := "base"
          targetLanguage := "en"
          useEnModel := "y" })
      (PState.mk [] [])
      = some ({ downloadVideo := true, noAudioInVideo := false,
                resolutionVal := some "720p", selectedRes := none,
                downloadAudio := false, transcribeAudio := true,
                modelName := some "base", targetLanguage := some "en",
                useEnModel := some true },
              PState.mk [] []) :=
  C4_amended_profile_round_trip [] (PState.mk [] [])
    (show interactiveResolve ["en"] [] [] noLastEnv
        (PState.mk ["y", "n", "720p", "n", "y", "base", "en", "y"] []) =
      some (({ downloadVideo := true, noAudioInVideo := false,
               resolutionVal := some "720p", selectedRes := none,
               downloadAudio := false, transcribeAudio := true,
               modelName := some "base", targetLanguage := some "en",
               useEnModel := some true },
             { defaultFields with
               downloadVideo := "y"
               noAudioInVideo := "n"
               resolutionField := "720p"
               downloadAudio := "n"
               transcribeAudio := "y"
               modelChoice := "base"
               targetLanguage := "en"
               useEnModel := "y" }),
            PState.mk [] [PromptKind.downloadVideo, PromptKind.noAudioInVideo,
              PromptKind.resolutionChoice, PromptKind.downloadAudio,
              PromptKind.transcribeAudio, PromptKind.modelChoice,
              PromptKind.targetLanguage, PromptKind.useEnModel])
      by decide)
    (fun _ => ⟨by decide, by decide, Or.inr (Or.inr ⟨by decide, by decide⟩)⟩)
    (fun _ => by decide)

end YTT
